import Mathlib

/-! Verification of the `tls_server` HTTPS echo service.

Shallow embedding of `src/tls_server/src/main.rs`: a small hyper/rustls
HTTPS server with a three-entry routing table (`GET /`, `POST /echo`,
catch-all 404), a process-wide request counter, an accept loop whose
policy is to abort the whole server on any TLS handshake failure, and
the surrounding startup plumbing (port parsing, private-key loading,
`main`'s error reporting).

Bodies on the wire are byte sequences, modelled as `List Nat` with each
byte below 256 (byte values only matter for UTF-8 validity, which the
embedded validator inspects directly). Panics of the Rust code (the
`.unwrap()` on `str::from_utf8`) are modelled as the `Except.error`
branch of the handler result.
-/

namespace TlsServer

/-- HTTP methods, as matched by the router (hyper's `Method` type;
only the constructors the program and its spec mention are spelled out,
`other` covers every further extension method). -/
inductive Method where
  | GET
  | POST
  | DELETE
  | PUT
  | HEAD
  | OPTIONS
  | other (name : String)
deriving DecidableEq, Repr

/-- A parsed HTTP request as the handler sees it: `parts.method`,
`parts.uri.path()` (the query string is a separate URI component and is
not part of `path()`), the headers (printed via `println!("{:?}", parts)`
but never routed on), and the raw body bytes. -/
structure HttpRequest where
  method : Method
  path : String
  query : Option String
  headers : List (String × String)
  body : List Nat
deriving DecidableEq, Repr

/-- An HTTP response: status code and body bytes (written here as the
`String` whose UTF-8 bytes hyper sends; all response bodies produced by
this program are ASCII literals). `Response::builder()` defaults the
status to 200. -/
structure HttpResponse where
  status : Nat
  body : String
deriving DecidableEq, Repr

/-- Whether `b` is a UTF-8 continuation byte (`0x80..=0xBF`). -/
def isCont (b : Nat) : Bool := 0x80 ≤ b && b ≤ 0xBF

/-- UTF-8 validity of a byte sequence, exactly the check performed by
Rust's `str::from_utf8` (RFC 3629: no overlong encodings, no surrogate
code points, nothing above U+10FFFF). -/
def utf8Valid : List Nat → Bool
  | [] => true
  | b :: rest =>
    if b ≤ 0x7F then utf8Valid rest
    else if 0xC2 ≤ b && b ≤ 0xDF then
      match rest with
      | c :: rest2 => isCont c && utf8Valid rest2
      | [] => false
    else if b == 0xE0 then
      match rest with
      | c1 :: c2 :: rest2 => (0xA0 ≤ c1 && c1 ≤ 0xBF) && isCont c2 && utf8Valid rest2
      | _ => false
    else if (0xE1 ≤ b && b ≤ 0xEC) || b == 0xEE || b == 0xEF then
      match rest with
      | c1 :: c2 :: rest2 => isCont c1 && isCont c2 && utf8Valid rest2
      | _ => false
    else if b == 0xED then
      match rest with
      | c1 :: c2 :: rest2 => (0x80 ≤ c1 && c1 ≤ 0x9F) && isCont c2 && utf8Valid rest2
      | _ => false
    else if b == 0xF0 then
      match rest with
      | c1 :: c2 :: c3 :: rest2 =>
        (0x90 ≤ c1 && c1 ≤ 0xBF) && isCont c2 && isCont c3 && utf8Valid rest2
      | _ => false
    else if 0xF1 ≤ b && b ≤ 0xF3 then
      match rest with
      | c1 :: c2 :: c3 :: rest2 => isCont c1 && isCont c2 && isCont c3 && utf8Valid rest2
      | _ => false
    else if b == 0xF4 then
      match rest with
      | c1 :: c2 :: c3 :: rest2 =>
        (0x80 ≤ c1 && c1 ≤ 0x8F) && isCont c2 && isCont c3 && utf8Valid rest2
      | _ => false
    else false

/-- Observable side effects of one `echo` invocation, in program order:
the atomic `fetch_add`, the `println!` of the loaded counter, the
`println!("{:?}", parts)` of the request line/headers, and (on the
`POST /echo` branch only, after buffering) the `println!` of the decoded
body. -/
inductive Effect where
  | incrCounter
  | printCounter (n : Nat)
  | printParts
  | printBody (bytes : List Nat)
deriving DecidableEq, Repr

/-- A panic of the handler future; the only panic site is the
`.unwrap()` on `str::from_utf8(&body)` in the `POST /echo` branch. -/
inductive Panic where
  | utf8Unwrap
deriving DecidableEq, Repr

instance {ε α : Type} [DecidableEq ε] [DecidableEq α] : DecidableEq (Except ε α) := fun a b =>
  match a, b with
  | .ok x, .ok y =>
    if h : x = y then .isTrue (by rw [h]) else .isFalse (fun hc => h (by injection hc))
  | .error x, .error y =>
    if h : x = y then .isTrue (by rw [h]) else .isFalse (fun hc => h (by injection hc))
  | .ok _, .error _ => .isFalse (by simp)
  | .error _, .ok _ => .isFalse (by simp)

/-- Result of one `echo` invocation: the counter after the
`fetch_add(1)`, the ordered effect trace, and either the produced
response or a panic. -/
structure EchoResult where
  counter : Nat
  effects : List Effect
  response : Except Panic HttpResponse
deriving DecidableEq, Repr

/-- The `echo` request handler (`main.rs` lines 95–126): increment the
shared counter, print it and the request parts, then route on
`(parts.method, parts.uri.path())`. `GET /` answers the help text,
`POST /echo` buffers the whole body, prints it decoded as UTF-8 via
`str::from_utf8(..).unwrap()` (a panic when the body is not valid
UTF-8), and answers the fixed acknowledgement; anything else is a 404
with an empty body. The request body is only touched on the
`POST /echo` branch. -/
def echo (counter : Nat) (req : HttpRequest) : EchoResult :=
  let c := counter + 1
  let pre : List Effect := [.incrCounter, .printCounter c, .printParts]
  match req.method, req.path with
  | .GET, "/" =>
    { counter := c, effects := pre
      response := .ok { status := 200, body := "Try POST /echo\n" } }
  | .POST, "/echo" =>
    if utf8Valid req.body then
      { counter := c, effects := pre ++ [.printBody req.body]
        response := .ok { status := 200, body := "/echo\n" } }
    else
      { counter := c, effects := pre, response := .error .utf8Unwrap }
  | _, _ =>
    { counter := c, effects := pre
      response := .ok { status := 404, body := "" } }

/-- One element of `tcp.incoming()` together with the outcome of the
TLS handshake attempted on it by `and_then(|s| tls_cfg.accept_async(s))`:
either an accepted TCP connection (identified by `id`) whose handshake
succeeds or fails, or an accept error surfaced by the listener itself
(which `and_then` passes through unchanged). -/
inductive AcceptEvent where
  | conn (id : Nat) (handshake : Except String Unit)
  | acceptErr (e : String)
deriving DecidableEq, Repr

/-- The accept pipeline of `run_server` (`main.rs` lines 64–75) composed
with hyper's `Server::builder(tls).serve(..)` semantics: connections
whose handshake succeeds pass `filter_map` and are served; the first
`Err` reaching the `.then` stage (a handshake failure, or an accept
error) is re-raised (`Err(_e)`), which makes the server future resolve
with that error — the loop stops and nothing later in the stream is
accepted. Returns the ids of the connections actually served, in order,
and the error that stopped the loop, if any. -/
def serveLoop : List AcceptEvent → List Nat × Option String
  | [] => ([], none)
  | .conn id (.ok _) :: rest =>
    let r := serveLoop rest
    (id :: r.1, r.2)
  | .conn _ (.error e) :: _ => ([], some e)
  | .acceptErr e :: _ => ([], some e)

/-- Port selection of `run_server` (`main.rs` lines 38–41): the first
positional command-line argument (`env::args().nth(1)`, here the head of
the argument list after the program name) or the literal default
`"1338"`. -/
def portOf (args : List String) : String :=
  match args.head? with
  | some p => p
  | none => "1338"

/-- Listening address of `run_server` (`main.rs` line 42):
`format!("127.0.0.1:{}", port)`. -/
def addrOf (args : List String) : String := "127.0.0.1:" ++ portOf args

/-- An RSA private key as parsed from PEM (opaque DER bytes). -/
structure PrivateKey where
  der : List Nat
deriving DecidableEq, Repr

/-- Abstract content of the key file as seen by `load_private_key`:
opening the file may fail, `pemfile::rsa_private_keys` may fail, or it
yields the list of keys parsed from the file. -/
inductive KeyFileRead where
  | openFailed (e : String)
  | parseFailed
  | parsed (keys : List PrivateKey)
deriving DecidableEq, Repr

/-- The function `load_private_key` (`main.rs` lines 140–153): propagate open and
parse failures as errors, reject any parse yielding a number of keys
other than exactly one (`keys.len() != 1`), and return the single key
(`keys[0].clone()`) otherwise. -/
def load_private_key (filename : String) : KeyFileRead → Except String PrivateKey
  | .openFailed e => .error ("failed to open " ++ filename ++ ": " ++ e)
  | .parseFailed => .error "failed to load private key"
  | .parsed keys =>
    match keys with
    | [k] => .ok k
    | _ => .error "expected a single private key"

/-- The function `main` (`main.rs` lines 24–30) as a function of `run_server`'s
result: on error, print `FAILED: <message>` to stderr and exit with
status 1; otherwise fall off the end of `main` (exit status 0). Returns
the stderr lines and the process exit status. -/
def mainRun : Except String Unit → List String × Nat
  | .error e => (["FAILED: " ++ e], 1)
  | .ok _ => ([], 0)

/-- Helper: any request matching neither routed pair falls to the
catch-all arm, whose entire result (counter, effects, response) is
independent of the body. -/
theorem echo_not_routed (c : Nat) (req : HttpRequest)
    (h1 : ¬(req.method = .GET ∧ req.path = "/"))
    (h2 : ¬(req.method = .POST ∧ req.path = "/echo")) :
    echo c req =
      { counter := c + 1
        effects := [.incrCounter, .printCounter (c + 1), .printParts]
        response := .ok { status := 404, body := "" } } := by
  obtain ⟨m, p, q, hs, b⟩ := req
  simp only [HttpRequest.method, HttpRequest.path] at h1 h2
  unfold echo
  split <;> simp_all

/-- C1 counterexample: for the POST /echo request with body `[0xFF]`
(a single byte that is not valid UTF-8), the handler does not produce
the 200 `"/echo\n"` response the claim demands — instead the
`str::from_utf8(&body).unwrap()` panics, so the decode failure is
propagated as a request failure rather than swallowed. -/
theorem c1_invalid_utf8_panics :
    (echo 0 { method := .POST, path := "/echo", query := none,
              headers := [], body := [0xFF] }).response = .error .utf8Unwrap := by
  decide

/-- C1 (amended): for every POST /echo request, if the body is valid
UTF-8 (the empty body included) the handler responds 200 with body
exactly `"/echo\n"`; if the body is not valid UTF-8, the diagnostic
decode's `.unwrap()` panics, which is propagated as a request failure
instead of being swallowed. -/
theorem c1_echo_post (c : Nat) (req : HttpRequest)
    (hm : req.method = .POST) (hp : req.path = "/echo") :
    (utf8Valid req.body = true →
      (echo c req).response = .ok { status := 200, body := "/echo\n" }) ∧
    (utf8Valid req.body = false →
      (echo c req).response = .error .utf8Unwrap) := by
  obtain ⟨m, p, q, hs, b⟩ := req
  simp only [HttpRequest.method, HttpRequest.path] at hm hp
  subst hm; subst hp
  constructor <;> intro hv <;> simp [echo, hv]

/-- C1 witness: the amended theorem applied at a concrete valid-UTF-8
(empty) body. -/
theorem c1_echo_post_witness :
    (echo 0 { method := .POST, path := "/echo", query := none,
              headers := [], body := [] }).response =
      .ok { status := 200, body := "/echo\n" } :=
  (c1_echo_post 0 { method := .POST, path := "/echo", query := none,
                    headers := [], body := [] } rfl rfl).1 rfl

/-- C2: `GET /` always yields 200 with body `"Try POST /echo\n"`,
whatever the query string, headers, body and current counter value —
hence any two such requests receive the identical response. -/
theorem c2_get_root (c c2 : Nat) (q q2 : Option String)
    (hs hs2 : List (String × String)) (b b2 : List Nat) :
    (echo c { method := .GET, path := "/", query := q,
              headers := hs, body := b }).response =
      .ok { status := 200, body := "Try POST /echo\n" } ∧
    (echo c { method := .GET, path := "/", query := q,
              headers := hs, body := b }).response =
      (echo c2 { method := .GET, path := "/", query := q2,
                 headers := hs2, body := b2 }).response := by
  exact ⟨rfl, rfl⟩

/-- C3: any request whose (method, path) pair is neither (GET, "/") nor
(POST, "/echo") is answered by the catch-all: 404 with an empty body. -/
theorem c3_catch_all_404 (c : Nat) (req : HttpRequest)
    (h1 : ¬(req.method = .GET ∧ req.path = "/"))
    (h2 : ¬(req.method = .POST ∧ req.path = "/echo")) :
    (echo c req).response = .ok { status := 404, body := "" } := by
  rw [echo_not_routed c req h1 h2]

/-- C3 witness: the catch-all theorem applied to `DELETE /`. -/
theorem c3_catch_all_404_witness :
    (echo 0 { method := .DELETE, path := "/", query := none,
              headers := [], body := [] }).response =
      .ok { status := 404, body := "" } :=
  c3_catch_all_404 0 _ (by decide) (by decide)

/-- C4: if the connections accepted so far all handshook successfully
(ids `ids`) and the next connection's TLS handshake fails with `e`, the
accept pipeline serves exactly `ids`, stops with error `e` — whatever
events `post` would have followed, none of them is accepted — and `main`
then reports `FAILED: e` and exits the whole process with status 1. -/
theorem c4_handshake_failure_fatal (ids : List Nat) (id : Nat) (e : String)
    (post : List AcceptEvent) :
    serveLoop (ids.map (fun i => .conn i (.ok ())) ++ .conn id (.error e) :: post) =
      (ids, some e) ∧
    mainRun (.error e) = (["FAILED: " ++ e], 1) := by
  refine ⟨?_, rfl⟩
  induction ids with
  | nil => rfl
  | cons i rest ih => simp [serveLoop, ih]

/-- C5: with no command-line argument the port is the string "1338"
(not the "1337" the header comment claims); with a first positional
argument `p` the port is `p`; and in every case the listening address is
`127.0.0.1:` followed by that port. -/
theorem c5_port_and_addr (args : List String) :
    portOf [] = "1338" ∧
    portOf [] ≠ "1337" ∧
    (∀ p rest, portOf (p :: rest) = p) ∧
    addrOf args = "127.0.0.1:" ++ portOf args := by
  exact ⟨rfl, by decide, fun p rest => rfl, rfl⟩

/-- C6: `load_private_key` fails with "expected a single private key"
whenever the parsed key list does not have length exactly one (zero keys
and multiple keys alike), and returns the single key otherwise. -/
theorem c6_single_private_key (filename : String) (keys : List PrivateKey) :
    (keys.length ≠ 1 →
      load_private_key filename (.parsed keys) =
        .error "expected a single private key") ∧
    (∀ k, keys = [k] → load_private_key filename (.parsed keys) = .ok k) := by
  constructor
  · intro h
    match keys with
    | [] => rfl
    | [k] => exact absurd rfl h
    | k1 :: k2 :: rest => rfl
  · rintro k rfl
    rfl

/-- C6 witness: zero keys are rejected, a singleton list returns its
key. -/
theorem c6_single_private_key_witness :
    load_private_key "cert_util/localhost.key" (.parsed []) =
      .error "expected a single private key" ∧
    load_private_key "cert_util/localhost.key" (.parsed [{ der := [1] }]) =
      .ok { der := [1] } :=
  ⟨(c6_single_private_key "cert_util/localhost.key" []).1 (by decide),
   (c6_single_private_key "cert_util/localhost.key" [{ der := [1] }]).2
     { der := [1] } rfl⟩

/-- C7: when `run_server` returns an error `e`, the process prints
`FAILED: e` to stderr and exits with status 1; when it returns
successfully the process exits with status 0; and exit status 0 occurs
only on success. -/
theorem c7_main_exit (e : String) :
    mainRun (.error e) = (["FAILED: " ++ e], 1) ∧
    mainRun (.ok ()) = ([], 0) ∧
    (∀ r : Except String Unit, (mainRun r).2 = 0 → r = .ok ()) := by
  refine ⟨rfl, rfl, fun r h => ?_⟩
  match r with
  | .ok () => rfl
  | .error a => exact absurd h (by simp [mainRun])

/-- C7 witness: the theorem applied at the success result. -/
theorem c7_main_exit_witness :
    mainRun (.ok ()) = ([], 0) ∧
      (Except.ok () : Except String Unit) = Except.ok () :=
  ⟨(c7_main_exit "x").2.1, (c7_main_exit "x").2.2 (.ok ()) rfl⟩

/-- C8: every `echo` invocation leaves the shared counter at exactly
its old value plus one — for every request, the 404-routed ones
included — and the increment together with the two diagnostic prints
happens first, before any routing-dependent effect: the effect trace of
every invocation starts with `incrCounter`. -/
theorem c8_counter_increment (c : Nat) (req : HttpRequest) :
    (echo c req).counter = c + 1 ∧
    (echo c req).effects.take 3 =
      [.incrCounter, .printCounter (c + 1), .printParts] := by
  obtain ⟨m, p, q, hs, b⟩ := req
  unfold echo
  split <;> first
    | exact ⟨rfl, rfl⟩
    | · dsimp only
        split <;> exact ⟨rfl, rfl⟩

/-- C9: route matching is by exact string equality on the path, so the
near-miss variants `POST /echo/` (trailing slash), `POST /Echo`
(different case) and `GET //` (doubled slash) all fall through to the
404 catch-all, and more generally every POST to a path other than
"/echo" and every GET to a path other than "/" does. -/
theorem c9_exact_path_match (c : Nat) (q : Option String)
    (hs : List (String × String)) (b : List Nat) :
    (echo c { method := .POST, path := "/echo/", query := q,
              headers := hs, body := b }).response =
      .ok { status := 404, body := "" } ∧
    (echo c { method := .POST, path := "/Echo", query := q,
              headers := hs, body := b }).response =
      .ok { status := 404, body := "" } ∧
    (echo c { method := .GET, path := "//", query := q,
              headers := hs, body := b }).response =
      .ok { status := 404, body := "" } ∧
    (∀ p, p ≠ "/echo" →
      (echo c { method := .POST, path := p, query := q,
                headers := hs, body := b }).response =
        .ok { status := 404, body := "" }) ∧
    (∀ p, p ≠ "/" →
      (echo c { method := .GET, path := p, query := q,
                headers := hs, body := b }).response =
        .ok { status := 404, body := "" }) := by
  refine ⟨rfl, rfl, rfl, fun p hp => ?_, fun p hp => ?_⟩ <;>
    rw [echo_not_routed] <;> simp [hp]

/-- C9 witness: the general parts applied at the concrete variant paths
`/echo/` and `//`. -/
theorem c9_exact_path_match_witness :
    (echo 0 { method := .POST, path := "/echo/", query := none,
              headers := [], body := [] }).response =
      .ok { status := 404, body := "" } ∧
    (echo 0 { method := .GET, path := "//", query := none,
              headers := [], body := [] }).response =
      .ok { status := 404, body := "" } :=
  ⟨(c9_exact_path_match 0 none [] []).2.2.2.1 "/echo/" (by decide),
   (c9_exact_path_match 0 none [] []).2.2.2.2 "//" (by decide)⟩

/-- C10: for every request not routed to POST /echo the whole result of
the handler — counter, effect trace and response — is independent of
the request body: replacing the body by any other body yields the
identical result, so the body is never read on those paths. -/
theorem c10_body_independent (c : Nat) (req : HttpRequest) (b1 b2 : List Nat)
    (h : ¬(req.method = .POST ∧ req.path = "/echo")) :
    echo c { req with body := b1 } = echo c { req with body := b2 } := by
  obtain ⟨m, p, q, hs, b⟩ := req
  simp only [HttpRequest.method, HttpRequest.path] at h
  by_cases hg : m = .GET ∧ p = "/"
  · obtain ⟨rfl, rfl⟩ := hg
    rfl
  · rw [echo_not_routed c { method := m, path := p, query := q,
                            headers := hs, body := b1 } (by simpa using hg)
          (by simpa using h),
        echo_not_routed c { method := m, path := p, query := q,
                            headers := hs, body := b2 } (by simpa using hg)
          (by simpa using h)]

/-- C10 witness: the theorem applied at a GET / request with two
different bodies. -/
theorem c10_body_independent_witness :
    echo 0 { method := .GET, path := "/", query := none,
             headers := [], body := [1, 2] } =
      echo 0 { method := .GET, path := "/", query := none,
               headers := [], body := [255] } :=
  c10_body_independent 0
    { method := .GET, path := "/", query := none, headers := [], body := [] }
    [1, 2] [255] (by decide)

end TlsServer
